import Mathlib

/-!
Verification of the marketplace backend's order/cart/settlement pipeline.

The definitions below are a shallow embedding of the JavaScript source:

* `Product`  — src/src/models/Product.js (`reduceStock`, `incrementSales`,
  `isAvailable`)
* `Cart`     — src/src/models/Cart.js (pre-save total recomputation,
  `addItem`, `updateItemQuantity`, `removeItem`, `clear`, `isEmpty`,
  `getItemsByStore`)
* `Order`    — src/src/models/Order.js (`calculateTotals` and the pre-save
  hook that runs it)
* `Sale`     — src/src/models/Sale.js (the pre-save commission hook,
  `processRefund`, `cancel`)
* `Purchase` — src/src/models/Purchase.js (plain record, no money hooks)
* `createOrder`, `updateOrderStatus` — the order controller concatenated at
  the end of src/src/controllers/purchaseController.js
* `checkout` — the cart router (src/unnamed/part_004, POST /checkout)

JavaScript numbers are embedded as `Rat`; Mongo object ids as `Nat`;
optional date stamps as `Option Nat` with the current time passed in
explicitly.  Fields that no claim mentions (images, slugs, tracking
numbers, ...) are omitted.  Document-level mongoose schema validation
(required / enum / min / max paths, validated before user pre-save hooks
run) is modelled where it decides an outcome: the checkout route's
order.save receives a document missing required Order paths, so that save
is embedded together with the schema check (`orderDocValid`).  On the other
write paths every required path is supplied with values meeting the bounds,
so validation passes and is left implicit there.
-/

namespace MarketplaceCR

/-! ### Product model (src/src/models/Product.js) -/

structure Product where
  id : Nat
  storeId : Nat
  name : String
  price : Rat
  stock : Rat
  salesCount : Rat
  isActive : Bool
deriving DecidableEq

/-- `reduceStock(quantity)`: throws when `this.stock < quantity`, otherwise
`this.stock -= quantity` (lines 178-184 of Product.js). -/
def Product.reduceStock (p : Product) (quantity : Rat) : Except String Product :=
  if p.stock < quantity then Except.error "Stock insuficiente"
  else Except.ok { p with stock := p.stock - quantity }

/-- `incrementSales(quantity)`: `this.salesCount += quantity`. -/
def Product.incrementSales (p : Product) (quantity : Rat) : Product :=
  { p with salesCount := p.salesCount + quantity }

/-- `isAvailable(quantity)`: `this.isActive && this.stock >= quantity`. -/
def Product.isAvailable (p : Product) (quantity : Rat) : Bool :=
  p.isActive && decide (quantity ≤ p.stock)

/-- The stock stored for the product after a `reduceStock` call: the updated
document on success, the untouched document when the method threw. -/
def Product.stockAfterReduce (p : Product) (quantity : Rat) : Rat :=
  match p.reduceStock quantity with
  | Except.ok p2 => p2.stock
  | Except.error _ => p.stock

/-! ### Cart model (src/src/models/Cart.js) -/

structure CartItem where
  productId : Nat
  quantity : Rat
  price : Rat
deriving DecidableEq

structure Cart where
  userId : Nat
  items : List CartItem
  totalAmount : Rat
deriving DecidableEq

/-- The pre-save hook recomputes
`totalAmount = items.reduce((t, i) => t + i.price * i.quantity, 0)`
(Cart.js lines 61-67). -/
def cartItemsTotal (items : List CartItem) : Rat :=
  items.foldl (fun total item => total + item.price * item.quantity) 0

/-- Saving a cart runs the pre-save hook. -/
def Cart.save (c : Cart) : Cart :=
  { c with totalAmount := cartItemsTotal c.items }

/-- Body of `addItem`: the first line with this product id (if any) gets its
quantity summed and its price refreshed; otherwise a fresh line is pushed at
the end (Cart.js lines 70-88). -/
def addItemToList (items : List CartItem) (productId : Nat) (quantity price : Rat) :
    List CartItem :=
  match items with
  | [] => [{ productId := productId, quantity := quantity, price := price }]
  | item :: rest =>
    if item.productId = productId then
      { item with quantity := item.quantity + quantity, price := price } :: rest
    else
      item :: addItemToList rest productId quantity price

def Cart.addItem (c : Cart) (productId : Nat) (quantity price : Rat) : Cart :=
  Cart.save { c with items := addItemToList c.items productId quantity price }

/-- Body of `updateItemQuantity` for the positive-quantity case: only the
first matching line has its quantity replaced. -/
def setFirstQuantity (items : List CartItem) (productId : Nat) (quantity : Rat) :
    List CartItem :=
  match items with
  | [] => []
  | item :: rest =>
    if item.productId = productId then { item with quantity := quantity } :: rest
    else item :: setFirstQuantity rest productId quantity

/-- `removeItem`: drops every line with the given product id, then saves. -/
def Cart.removeItem (c : Cart) (productId : Nat) : Cart :=
  Cart.save { c with items := c.items.filter (fun item => item.productId ≠ productId) }

/-- `updateItemQuantity`: throws when the line is absent; `quantity <= 0`
removes the line; otherwise replaces the quantity and saves
(Cart.js lines 91-106). -/
def Cart.updateItemQuantity (c : Cart) (productId : Nat) (quantity : Rat) :
    Except String Cart :=
  match c.items.find? (fun item => item.productId = productId) with
  | none => Except.error "Producto no encontrado en el carrito"
  | some _ =>
    if quantity ≤ 0 then Except.ok (c.removeItem productId)
    else Except.ok (Cart.save { c with items := setFirstQuantity c.items productId quantity })

/-- `clear`: empties the item list, zeroes the total, saves. -/
def Cart.clear (c : Cart) : Cart :=
  Cart.save { c with items := [], totalAmount := 0 }

def Cart.isEmpty (c : Cart) : Bool :=
  c.items.isEmpty

/-- `getOrCreateCart` builds `new Cart({ userId, items: [] })` and saves it
when the buyer had no cart yet. -/
def Cart.mkEmpty (userId : Nat) : Cart :=
  Cart.save { userId := userId, items := [], totalAmount := 0 }

/-- The implicit cart invariant: each product id appears in at most one
line item. -/
@[reducible] def CartUniq (c : Cart) : Prop :=
  (c.items.map CartItem.productId).Nodup

/-! ### Order model (src/src/models/Order.js) -/

structure OrderItem where
  product : Nat
  store : Nat
  quantity : Rat
  price : Rat
  total : Rat
deriving DecidableEq

structure Order where
  buyer : Nat
  items : List OrderItem
  paymentMethod : String
  paymentStatus : String
  subtotal : Rat
  shippingCost : Rat
  tax : Rat
  total : Rat
  status : String
  shippedDate : Option Nat
  deliveredDate : Option Nat
  cancelledDate : Option Nat
  cancelReason : Option String
  cancelledBy : Option Nat
deriving DecidableEq

/-- `this.subtotal = this.items.reduce((sum, item) => sum + item.total, 0)`
(Order.js line 153). -/
def orderItemsSubtotal (items : List OrderItem) : Rat :=
  items.foldl (fun sum item => sum + item.total) 0

/-- `calculateTotals` (Order.js lines 152-156): recomputes `subtotal` from
the embedded items and then `total = subtotal + shippingCost + tax`. -/
def Order.calculateTotals (o : Order) : Order :=
  let s := orderItemsSubtotal o.items
  { o with subtotal := s, total := s + o.shippingCost + o.tax }

/-- Saving an order runs the `pre('save')` hook, which calls
`calculateTotals` unconditionally (Order.js lines 167-170). -/
def Order.save (o : Order) : Order :=
  o.calculateTotals

/-! ### Sale model (src/src/models/Sale.js) -/

structure Sale where
  order : Nat
  store : Nat
  seller : Nat
  buyer : Nat
  product : Nat
  quantity : Rat
  unitPrice : Rat
  totalAmount : Rat
  platformCommission : Rat
  platformCommissionRate : Rat
  netAmount : Rat
  paymentMethod : String
  paymentStatus : String
  status : String
  notes : Option String
  refundReason : Option String
  refundAmount : Rat
deriving DecidableEq

/-- The `pre('save')` hook (Sale.js lines 136-142): when `totalAmount` or
`platformCommissionRate` is modified in this save,
`platformCommission = totalAmount * platformCommissionRate` and
`netAmount = totalAmount - platformCommission`.  The two `isModified` flags
are passed in explicitly. -/
def Sale.applyPreSave (s : Sale) (modifiedTotalAmount modifiedRate : Bool) : Sale :=
  if modifiedTotalAmount || modifiedRate then
    let commission := s.totalAmount * s.platformCommissionRate
    { s with platformCommission := commission, netAmount := s.totalAmount - commission }
  else s

/-- Saving a freshly constructed Sale: on a new mongoose document every
assigned path is modified, and `totalAmount` and `platformCommissionRate`
are both assigned by every creation site in the repository. -/
def Sale.saveNew (s : Sale) : Sale :=
  s.applyPreSave true true

/-- `processRefund(amount, reason)` (Sale.js lines 145-152); the
`amount || this.totalAmount` fallback fires on a missing or zero amount.
Neither `totalAmount` nor the rate is touched, so the hook is inert. -/
def Sale.processRefund (s : Sale) (amount : Option Rat) (reason : String) : Sale :=
  Sale.applyPreSave
    { s with
      status := "refunded",
      refundAmount :=
        match amount with
        | some a => if a = 0 then s.totalAmount else a
        | none => s.totalAmount,
      refundReason := some reason,
      paymentStatus := "refunded" }
    false false

/-- `cancel(reason)` (Sale.js lines 155-159); `reason || 'Venta cancelada'`
fires on a missing or empty reason. -/
def Sale.cancel (s : Sale) (reason : Option String) : Sale :=
  Sale.applyPreSave
    { s with
      status := "cancelled",
      notes := some
        (match reason with
          | some r => if r = "" then "Venta cancelada" else r
          | none => "Venta cancelada") }
    false false

/-- The Sale money invariant stated by the spec. -/
def SaleInvariant (s : Sale) : Prop :=
  s.platformCommission = s.totalAmount * s.platformCommissionRate ∧
  s.netAmount = s.totalAmount - s.platformCommission

/-! ### Purchase model (src/src/models/Purchase.js): a plain record, its
schema has no money hooks. -/

structure Purchase where
  order : Nat
  buyer : Nat
  product : Nat
  store : Nat
  quantity : Rat
  unitPrice : Rat
  totalAmount : Rat
  paymentMethod : String
  paymentStatus : String
  status : String
deriving DecidableEq

/-! ### Order controller (`createOrder`, purchaseController.js lines
530-664 of the concatenated file) -/

structure Store where
  id : Nat
  userId : Nat
deriving DecidableEq

/-- A line item of the request body.  The controller reads `item.product`,
`item.store`, `item.quantity`, `item.price` and — for the Purchase and Sale
records — the caller-supplied `item.total`. -/
structure ReqItem where
  product : Nat
  store : Nat
  quantity : Rat
  price : Rat
  total : Rat
deriving DecidableEq

inductive CreateOrderError where
  | noItems : CreateOrderError
  | productUnavailable : Nat → CreateOrderError
  | insufficientStock : String → CreateOrderError
  | storeLookupFailed : CreateOrderError
deriving DecidableEq

/-- `Product.findById`. -/
def findProduct (products : List Product) (pid : Nat) : Option Product :=
  products.find? (fun p => p.id = pid)

/-- The validation loop run before any mutation (controller lines 550-564):
first failing line aborts with `Producto ... no disponible` (missing or
inactive product) or `Stock insuficiente para ...`. -/
def validateItems (products : List Product) : List ReqItem → Option CreateOrderError
  | [] => none
  | item :: rest =>
    match findProduct products item.product with
    | none => some (CreateOrderError.productUnavailable item.product)
    | some p =>
      if p.isActive = false then some (CreateOrderError.productUnavailable item.product)
      else if p.stock < item.quantity then some (CreateOrderError.insufficientStock p.name)
      else validateItems products rest

/-- `Product.findByIdAndUpdate(item.product, { $inc: { stock: -qty,
salesCount: qty } })`. -/
def applyStockInc (products : List Product) (pid : Nat) (quantity : Rat) : List Product :=
  products.map (fun p =>
    if p.id = pid then { p with stock := p.stock - quantity, salesCount := p.salesCount + quantity }
    else p)

/-- The Sale document built in the creation loop (controller lines 614-628):
`totalAmount` is the caller-supplied `item.total`, the rate is hard-coded
0.05, and `netAmount` is pre-filled with `item.total * (1 - 0.05)` before the
pre-save hook recomputes it. -/
def mkCreateOrderSale (orderId storeId sellerId buyerId productId : Nat)
    (quantity price total : Rat) (paymentMethod : String) : Sale :=
  { order := orderId, store := storeId, seller := sellerId, buyer := buyerId,
    product := productId, quantity := quantity, unitPrice := price,
    totalAmount := total,
    platformCommission := 0,
    platformCommissionRate := 5 / 100,
    netAmount := total * (1 - 5 / 100),
    paymentMethod := paymentMethod, paymentStatus := "completed", status := "completed",
    notes := none, refundReason := none, refundAmount := 0 }

/-- The Purchase document built in the creation loop (lines 598-609). -/
def mkCreateOrderPurchase (orderId buyerId : Nat) (item : ReqItem)
    (paymentMethod : String) : Purchase :=
  { order := orderId, buyer := buyerId, product := item.product, store := item.store,
    quantity := item.quantity, unitPrice := item.price, totalAmount := item.total,
    paymentMethod := paymentMethod, paymentStatus := "completed", status := "completed" }

structure ItemsLoopResult where
  products : List Product
  purchases : List Purchase
  sales : List Sale
  failed : Bool
deriving DecidableEq

/-- The per-line mutation loop of `createOrder` (lines 582-633): decrement
stock / increment salesCount, then create one Purchase and one Sale per
line.  A store the lookup cannot resolve makes `store.userId._id` throw,
which aborts the loop with the earlier lines' effects already applied. -/
def processOrderItems (stores : List Store) (buyerId orderId : Nat)
    (paymentMethod : String) :
    List ReqItem → List Product → ItemsLoopResult
  | [], products => { products := products, purchases := [], sales := [], failed := false }
  | item :: rest, products =>
    let products1 := applyStockInc products item.product item.quantity
    match stores.find? (fun st => st.id = item.store) with
    | none => { products := products1, purchases := [], sales := [], failed := true }
    | some st =>
      let purchase := mkCreateOrderPurchase orderId buyerId item paymentMethod
      let sale := Sale.saveNew
        (mkCreateOrderSale orderId item.store st.userId buyerId item.product
          item.quantity item.price item.total paymentMethod)
      let r := processOrderItems stores buyerId orderId paymentMethod rest products1
      { products := r.products, purchases := purchase :: r.purchases,
        sales := sale :: r.sales, failed := r.failed }

structure CreateOrderInput where
  items : List ReqItem
  paymentMethod : String
  subtotal : Rat
  shippingCost : Rat
  tax : Rat
deriving DecidableEq

/-- The Order document built and saved by `createOrder` (lines 566-580):
each embedded line keeps the request fields but has its `total` overwritten
with `item.price * item.quantity`; the caller-supplied `subtotal` and
`total` fields are then recomputed by the save hook. -/
def mkOrderFromRequest (buyerId : Nat) (input : CreateOrderInput) : Order :=
  Order.save
    { buyer := buyerId,
      items := input.items.map (fun item =>
        { product := item.product, store := item.store, quantity := item.quantity,
          price := item.price, total := item.price * item.quantity }),
      paymentMethod := input.paymentMethod, paymentStatus := "pending",
      subtotal := input.subtotal, shippingCost := input.shippingCost, tax := input.tax,
      total := input.subtotal + input.shippingCost + input.tax,
      status := "pending",
      shippedDate := none, deliveredDate := none, cancelledDate := none,
      cancelReason := none, cancelledBy := none }

/-- The documents produced by one `createOrder` call, together with the
catalog as the call leaves it. -/
structure CreateOrderResult where
  error : Option CreateOrderError
  orders : List Order
  purchases : List Purchase
  sales : List Sale
  products : List Product
deriving DecidableEq

/-- `createOrder` (controller lines 530-664): empty-item guard, then the
validation loop, then the order save and the per-line mutation loop. -/
def createOrder (products : List Product) (stores : List Store)
    (buyerId orderId : Nat) (input : CreateOrderInput) : CreateOrderResult :=
  if input.items.isEmpty then
    { error := some CreateOrderError.noItems, orders := [], purchases := [],
      sales := [], products := products }
  else
    match validateItems products input.items with
    | some e =>
      { error := some e, orders := [], purchases := [], sales := [], products := products }
    | none =>
      let order := mkOrderFromRequest buyerId input
      let r := processOrderItems stores buyerId orderId input.paymentMethod
        input.items products
      { error := if r.failed then some CreateOrderError.storeLookupFailed else none,
        orders := [order], purchases := r.purchases, sales := r.sales,
        products := r.products }

/-! ### `updateOrderStatus` (controller lines 1006-1051).  It uses
`findByIdAndUpdate`, which bypasses the save hooks; the request body is
destructured to `{ status }` only, so no actor or reason is ever read. -/

def validStatuses : List String :=
  ["pending", "confirmed", "processing", "shipped", "delivered", "cancelled"]

/-- The update document applied by `findByIdAndUpdate`: the new status plus
a date stamp for shipped / delivered / cancelled targets. -/
def applyStatusUpdate (o : Order) (status : String) (now : Nat) : Order :=
  { o with
    status := status,
    shippedDate := if status = "shipped" then some now else o.shippedDate,
    deliveredDate := if status = "delivered" then some now else o.deliveredDate,
    cancelledDate := if status = "cancelled" then some now else o.cancelledDate }

/-- `updateOrderStatus` on a single order document: the only check is that
the target is one of the six status names. -/
def updateOrderStatus (o : Order) (status : String) (now : Nat) : Except String Order :=
  if validStatuses.contains status = false then
    Except.error "Estado de orden inválido"
  else
    Except.ok (applyStatusUpdate o status now)

/-- The persistent state the status-update endpoint could touch. -/
structure AppState where
  orders : List (Nat × Order)
  purchases : List Purchase
  sales : List Sale
  products : List Product
deriving DecidableEq

/-- `updateOrderStatus` at the state level: only the matching Order
document is rewritten; Purchase, Sale and Product records are not part of
the handler at all.  Returns the new state and whether the update was
applied. -/
def updateOrderStatusApp (st : AppState) (orderId : Nat) (status : String)
    (now : Nat) : AppState × Bool :=
  if validStatuses.contains status = false then (st, false)
  else if (st.orders.find? (fun entry => entry.1 = orderId)).isNone then (st, false)
  else
    ({ st with
        orders := st.orders.map (fun entry =>
          if entry.1 = orderId then (entry.1, applyStatusUpdate entry.2 status now)
          else entry) },
      true)

/-! ### Cart checkout route (src/unnamed/part_004, POST /checkout) -/

/-- One group returned by `getItemsByStore` (Cart.js lines 134-157):
groups are keyed by the owning store in first-seen order, each accumulating
its items and a subtotal; lines whose product no longer resolves are
skipped. -/
structure StoreGroup where
  storeId : Nat
  items : List CartItem
  subtotal : Rat
deriving DecidableEq

def addItemToGroups : List StoreGroup → Nat → CartItem → List StoreGroup
  | [], sid, item =>
    [{ storeId := sid, items := [item], subtotal := item.price * item.quantity }]
  | g :: rest, sid, item =>
    if g.storeId = sid then
      { g with
        items := g.items ++ [item]
        subtotal := g.subtotal + item.price * item.quantity } :: rest
    else
      g :: addItemToGroups rest sid item

def groupItemsByStore (products : List Product) :
    List CartItem → List StoreGroup → List StoreGroup
  | [], groups => groups
  | item :: rest, groups =>
    match findProduct products item.productId with
    | none => groupItemsByStore products rest groups
    | some p => groupItemsByStore products rest (addItemToGroups groups p.storeId item)

def Cart.getItemsByStore (c : Cart) (products : List Product) : List StoreGroup :=
  groupItemsByStore products c.items []

/-- A line of an order as the checkout route builds it (part_004 lines
299-305); the `name` copied from the populated product is omitted. -/
structure CheckoutItem where
  productId : Nat
  price : Rat
  quantity : Rat
  subtotal : Rat
deriving DecidableEq

/-- The order document the checkout route constructs per store group
(part_004 lines 296-309). -/
structure CheckoutOrder where
  userId : Nat
  storeId : Nat
  items : List CheckoutItem
  totalAmount : Rat
  paymentMethod : String
deriving DecidableEq

inductive CheckoutError where
  | missingShippingAddress : CheckoutError
  | emptyCart : CheckoutError
  | productNotAvailable : Nat → CheckoutError
  | insufficientStock : String → CheckoutError
  | checkoutProcessingError : CheckoutError
deriving DecidableEq

structure CheckoutResult where
  error : Option CheckoutError
  orders : List CheckoutOrder
  products : List Product
  cart : Cart
deriving DecidableEq

/-- The availability loop over the populated cart (part_004 lines 274-288):
missing or inactive product aborts with the unavailable error, then
`isAvailable(quantity)` guards the stock. -/
def validateCartItems (products : List Product) : List CartItem → Option CheckoutError
  | [] => none
  | item :: rest =>
    match findProduct products item.productId with
    | none => some (CheckoutError.productNotAvailable item.productId)
    | some p =>
      if p.isActive = false then some (CheckoutError.productNotAvailable item.productId)
      else if p.isAvailable item.quantity = false then
        some (CheckoutError.insufficientStock p.name)
      else validateCartItems products rest

def mkCheckoutOrder (userId : Nat) (paymentMethod : String) (g : StoreGroup) :
    CheckoutOrder :=
  { userId := userId, storeId := g.storeId,
    items := g.items.map (fun item =>
      { productId := item.productId, price := item.price, quantity := item.quantity,
        subtotal := item.price * item.quantity }),
    totalAmount := g.subtotal, paymentMethod := paymentMethod }

/-! Mongoose validates a document against its schema when save is called,
before any user pre-save hook runs.  The following embeds the Order schema
paths (Order.js) that an incoming document must satisfy; paths the schema
fills itself with valid defaults (orderNumber, paymentStatus, status,
dates) are omitted.  An embedded line item must carry product, store,
quantity at least 1, price at least 0 and total at least 0. -/

structure OrderItemDoc where
  product : Option Nat
  store : Option Nat
  quantity : Option Rat
  price : Option Rat
  total : Option Rat
deriving DecidableEq

structure OrderDoc where
  buyer : Option Nat
  items : List OrderItemDoc
  paymentMethod : Option String
  subtotal : Option Rat
  shippingCost : Rat
  tax : Rat
  total : Option Rat
deriving DecidableEq

def paymentMethodValues : List String :=
  ["credit_card", "debit_card", "paypal", "bank_transfer", "cash"]

def orderItemDocValid (item : OrderItemDoc) : Bool :=
  item.product.isSome && item.store.isSome &&
  (match item.quantity with | some q => decide (1 ≤ q) | none => false) &&
  (match item.price with | some p => decide (0 ≤ p) | none => false) &&
  (match item.total with | some t => decide (0 ≤ t) | none => false)

/-- Order schema validation: buyer required; every line valid; payment
method required and in the enum; subtotal and total required, all money
fields non-negative. -/
def orderDocValid (d : OrderDoc) : Bool :=
  d.buyer.isSome &&
  d.items.all orderItemDocValid &&
  (match d.paymentMethod with
    | some pm => paymentMethodValues.contains pm
    | none => false) &&
  (match d.subtotal with | some s => decide (0 ≤ s) | none => false) &&
  decide (0 ≤ d.shippingCost) && decide (0 ≤ d.tax) &&
  (match d.total with | some t => decide (0 ≤ t) | none => false)

/-- The document the Order model receives from the checkout route's
constructor (part_004 lines 296-309) under strict mode: userId, storeId,
totalAmount and the per-item productId, name and subtotal are not Order
schema paths and are dropped, while buyer, subtotal, total and the
per-item product, store and total are never supplied; only paymentMethod
and the per-item quantity and price land on schema paths. -/
def mkCheckoutOrderDoc (paymentMethod : String) (g : StoreGroup) : OrderDoc :=
  { buyer := none,
    items := g.items.map (fun item =>
      { product := none, store := none,
        quantity := some item.quantity, price := some item.price, total := none }),
    paymentMethod := some paymentMethod,
    subtotal := none, shippingCost := 0, tax := 0, total := none }

/-- The stock loop inside one store group (part_004 lines 315-318):
`reduceStock` then `incrementSales` per line; a line whose product is
missing or whose `reduceStock` throws aborts the request mid-way. -/
def reduceProductsForItems (products : List Product) :
    List CartItem → List Product × Bool
  | [] => (products, false)
  | item :: rest =>
    match findProduct products item.productId with
    | none => (products, true)
    | some p =>
      match p.reduceStock item.quantity with
      | Except.error _ => (products, true)
      | Except.ok p1 =>
        let p2 := p1.incrementSales item.quantity
        reduceProductsForItems
          (products.map (fun q => if q.id = item.productId then p2 else q)) rest

/-- The per-store-group loop (part_004 lines 295-319): per group the route
constructs an order and awaits order.save — mongoose validates the document
against the Order schema there, and a rejected save throws into the route's
catch with the earlier groups' effects kept — then, on a successful save,
reduces that group's stock. -/
def processStoreGroups (userId : Nat) (paymentMethod : String) :
    List StoreGroup → List Product → List CheckoutOrder × List Product × Bool
  | [], products => ([], products, false)
  | g :: rest, products =>
    if orderDocValid (mkCheckoutOrderDoc paymentMethod g) = false then
      ([], products, true)
    else
      let order := mkCheckoutOrder userId paymentMethod g
      let rp := reduceProductsForItems products g.items
      if rp.2 then ([order], rp.1, true)
      else
        let rr := processStoreGroups userId paymentMethod rest rp.1
        (order :: rr.1, rr.2.1, rr.2.2)

/-- POST /checkout (part_004 lines 251-353).  A throw anywhere in the group
loop lands in the route's catch, which answers 500 Error procesando el
checkout, leaving whatever the loop already did; the cart is cleared only
after every group succeeded.  The date fields and the notification fan-out
are omitted. -/
def checkout (products : List Product) (c : Cart) (hasShippingAddress : Bool)
    (paymentMethod : Option String) : CheckoutResult :=
  if hasShippingAddress = false then
    { error := some CheckoutError.missingShippingAddress, orders := [],
      products := products, cart := c }
  else if c.isEmpty then
    { error := some CheckoutError.emptyCart, orders := [],
      products := products, cart := c }
  else
    match validateCartItems products c.items with
    | some e => { error := some e, orders := [], products := products, cart := c }
    | none =>
      let groups := c.getItemsByStore products
      let r := processStoreGroups c.userId (paymentMethod.getD "pending") groups products
      if r.2.2 then
        { error := some CheckoutError.checkoutProcessingError, orders := r.1,
          products := r.2.1, cart := c }
      else
        { error := none, orders := r.1, products := r.2.1, cart := c.clear }

/-! ### The Sale write paths of the repository -/

/-- Every way the repository brings a Sale document through `save`: creation
inside `createOrder` (followed by the new-document save), `processRefund`,
and `cancel`. -/
inductive SaleWrite : Sale → Prop where
  | createdSale :
      ∀ (orderId storeId sellerId buyerId productId : Nat)
        (quantity price total : Rat) (paymentMethod : String),
        SaleWrite (Sale.saveNew
          (mkCreateOrderSale orderId storeId sellerId buyerId productId
            quantity price total paymentMethod))
  | refunded : ∀ (s : Sale) (amount : Option Rat) (reason : String),
      SaleWrite s → SaleWrite (s.processRefund amount reason)
  | cancelledSale : ∀ (s : Sale) (reason : Option String),
      SaleWrite s → SaleWrite (s.cancel reason)

/-! ### Helper lemmas -/

theorem foldl_add_eq_sum {α : Type} (f : α → Rat) :
    ∀ (l : List α) (a : Rat), l.foldl (fun t i => t + f i) a = a + (l.map f).sum := by
  intro l
  induction l with
  | nil => intro a; simp
  | cons x xs ih => intro a; simp [List.foldl_cons, ih]; ring

theorem cartItemsTotal_eq_sum (items : List CartItem) :
    cartItemsTotal items = (items.map (fun item => item.price * item.quantity)).sum := by
  have h := foldl_add_eq_sum (fun item : CartItem => item.price * item.quantity) items 0
  simpa [cartItemsTotal] using h

theorem orderItemsSubtotal_eq_sum (items : List OrderItem) :
    orderItemsSubtotal items = (items.map OrderItem.total).sum := by
  have h := foldl_add_eq_sum OrderItem.total items 0
  simpa [orderItemsSubtotal] using h

theorem saved_order_totals (o : Order) :
    (o.save).subtotal = ((o.save).items.map OrderItem.total).sum ∧
    (o.save).total = (o.save).subtotal + (o.save).shippingCost + (o.save).tax := by
  constructor
  · simp [Order.save, Order.calculateTotals, orderItemsSubtotal_eq_sum]
  · simp [Order.save, Order.calculateTotals]

/-! ### C10 -/

/-- C10: a single reduceStock call throws the error Stock insuficiente and
leaves the document untouched when the stock is below the requested
quantity, otherwise decreases the stock by exactly that quantity; a product
whose stored stock was non-negative therefore never ends below zero. -/
theorem reduceStock_never_negative (p : Product) (q : Rat) :
    (p.stock < q →
      p.reduceStock q = Except.error "Stock insuficiente" ∧
      p.stockAfterReduce q = p.stock) ∧
    (q ≤ p.stock → p.reduceStock q = Except.ok { p with stock := p.stock - q }) ∧
    (0 ≤ p.stock → 0 ≤ p.stockAfterReduce q) := by
  refine ⟨?_, ?_, ?_⟩
  · intro h
    constructor
    · simp [Product.reduceStock, h]
    · simp [Product.stockAfterReduce, Product.reduceStock, h]
  · intro h
    simp [Product.reduceStock, not_lt.mpr h]
  · intro h
    by_cases hc : p.stock < q
    · simpa [Product.stockAfterReduce, Product.reduceStock, hc] using h
    · have hq : q ≤ p.stock := not_lt.mp hc
      simp [Product.stockAfterReduce, Product.reduceStock, hc]
      linarith

def sampleProduct : Product :=
  { id := 1, storeId := 10, name := "Camisa", price := 20, stock := 3,
    salesCount := 0, isActive := true }

theorem reduceStock_never_negative_witness :
    (sampleProduct.reduceStock 5 = Except.error "Stock insuficiente" ∧
      sampleProduct.stockAfterReduce 5 = sampleProduct.stock) ∧
    sampleProduct.reduceStock 2 =
      Except.ok { sampleProduct with stock := sampleProduct.stock - 2 } ∧
    0 ≤ sampleProduct.stockAfterReduce 5 :=
  ⟨(reduceStock_never_negative sampleProduct 5).1 (by decide),
   (reduceStock_never_negative sampleProduct 2).2.1 (by decide),
   (reduceStock_never_negative sampleProduct 5).2.2 (by decide)⟩

/-! ### C1 -/

/-- C1: every order that goes through the model save path leaves with
subtotal equal to the sum of the embedded line totals and total equal to
subtotal + shippingCost + tax; the caller-supplied subtotal and total are
discarded (overwriting them before the save changes nothing), and the
controller's createOrder builds its order through this very save. -/
theorem order_save_recomputes_totals (o : Order) :
    (o.save).subtotal = ((o.save).items.map OrderItem.total).sum ∧
    (o.save).total = (o.save).subtotal + (o.save).shippingCost + (o.save).tax ∧
    (∀ s t : Rat, Order.save { o with subtotal := s, total := t } = o.save) ∧
    (∀ (buyerId : Nat) (input : CreateOrderInput),
      (mkOrderFromRequest buyerId input).subtotal =
        ((mkOrderFromRequest buyerId input).items.map OrderItem.total).sum ∧
      (mkOrderFromRequest buyerId input).total =
        (mkOrderFromRequest buyerId input).subtotal +
          (mkOrderFromRequest buyerId input).shippingCost +
          (mkOrderFromRequest buyerId input).tax) := by
  refine ⟨(saved_order_totals o).1, (saved_order_totals o).2, ?_, ?_⟩
  · intro s t
    simp [Order.save, Order.calculateTotals]
  · intro buyerId input
    exact saved_order_totals _

/-! ### C8 -/

/-- C8: a checkout against an empty cart fails with the empty-cart
validation error before any side effect: no order is created, the catalog
is untouched and the cart is left as it was. -/
theorem checkout_empty_cart_rejected (products : List Product) (c : Cart)
    (pm : Option String) (h : c.items = []) :
    checkout products c true pm =
      { error := some CheckoutError.emptyCart, orders := [],
        products := products, cart := c } := by
  simp [checkout, Cart.isEmpty, h]

theorem checkout_empty_cart_rejected_witness :
    checkout [sampleProduct] (Cart.mkEmpty 7) true (some "cash") =
      { error := some CheckoutError.emptyCart, orders := [],
        products := [sampleProduct], cart := Cart.mkEmpty 7 } :=
  checkout_empty_cart_rejected [sampleProduct] (Cart.mkEmpty 7) (some "cash") (by rfl)

/-! ### C4 -/

def deliveredOrder : Order :=
  { buyer := 7,
    items := [{ product := 1, store := 10, quantity := 2, price := 20, total := 40 }],
    paymentMethod := "cash", paymentStatus := "completed",
    subtotal := 40, shippingCost := 0, tax := 0, total := 40,
    status := "delivered",
    shippedDate := some 3, deliveredDate := some 4, cancelledDate := none,
    cancelReason := none, cancelledBy := none }

/-- C4 counterexample: the claim says a request to change a delivered order
is rejected with InvalidStatus and the order is unchanged; the handler
instead accepts delivered to confirmed and rewrites the status, because it
only checks that the target is one of the six status names. -/
theorem updateOrderStatus_delivered_not_terminal :
    deliveredOrder.status = "delivered" ∧
    updateOrderStatus deliveredOrder "confirmed" 9 =
      Except.ok { deliveredOrder with status := "confirmed" } := by
  exact ⟨rfl, rfl⟩

/-- C4 amended: updateOrderStatus validates only the target status name.
Any target among the six valid names is accepted whatever the current
status (so delivered and cancelled are not terminal and a transition into
the current status trivially succeeds), the new status is stored with the
matching date stamp, and only an unknown name is rejected with the
InvalidStatus error, leaving the order unchanged. -/
theorem updateOrderStatus_name_check_only (o : Order) (s : String) (now : Nat) :
    (s ∈ validStatuses →
      updateOrderStatus o s now = Except.ok (applyStatusUpdate o s now) ∧
      (applyStatusUpdate o s now).status = s ∧
      (s = "shipped" → (applyStatusUpdate o s now).shippedDate = some now) ∧
      (s = "delivered" → (applyStatusUpdate o s now).deliveredDate = some now) ∧
      (s = "cancelled" → (applyStatusUpdate o s now).cancelledDate = some now) ∧
      (applyStatusUpdate o s now).items = o.items ∧
      (applyStatusUpdate o s now).buyer = o.buyer ∧
      (applyStatusUpdate o s now).total = o.total) ∧
    (s ∉ validStatuses →
      updateOrderStatus o s now = Except.error "Estado de orden inválido") := by
  constructor
  · intro h
    have hc : validStatuses.contains s = true := List.elem_eq_true_of_mem h
    refine ⟨by simp [updateOrderStatus, hc, h], by simp [applyStatusUpdate], ?_, ?_, ?_,
      by simp [applyStatusUpdate], by simp [applyStatusUpdate], by simp [applyStatusUpdate]⟩
    · intro hs; subst hs; simp [applyStatusUpdate]
    · intro hs; subst hs; simp [applyStatusUpdate]
    · intro hs; subst hs; simp [applyStatusUpdate]
  · intro h
    simp [updateOrderStatus, h]

theorem updateOrderStatus_name_check_only_witness :
    updateOrderStatus deliveredOrder "confirmed" 9 =
      Except.ok (applyStatusUpdate deliveredOrder "confirmed" 9) ∧
    updateOrderStatus deliveredOrder "archived" 9 =
      Except.error "Estado de orden inválido" :=
  ⟨((updateOrderStatus_name_check_only deliveredOrder "confirmed" 9).1 (by decide)).1,
   (updateOrderStatus_name_check_only deliveredOrder "archived" 9).2 (by decide)⟩

/-! ### C5 -/

def pendingOrder : Order :=
  { buyer := 7,
    items := [{ product := 1, store := 10, quantity := 2, price := 20, total := 40 }],
    paymentMethod := "cash", paymentStatus := "completed",
    subtotal := 40, shippingCost := 0, tax := 0, total := 40,
    status := "pending",
    shippedDate := none, deliveredDate := none, cancelledDate := none,
    cancelReason := none, cancelledBy := none }

def samplePurchase : Purchase :=
  { order := 1, buyer := 7, product := 1, store := 10, quantity := 2, unitPrice := 20,
    totalAmount := 40, paymentMethod := "cash", paymentStatus := "completed",
    status := "completed" }

def sampleSale : Sale :=
  Sale.saveNew (mkCreateOrderSale 1 10 99 7 1 2 20 40 "cash")

def sampleState : AppState :=
  { orders := [(1, pendingOrder)], purchases := [samplePurchase],
    sales := [sampleSale], products := [sampleProduct] }

/-- C5 counterexample: cancelling order 1 (quantity 2 of product 1, whose
stock is 3) stamps cancelledDate but, against the claim, records no actor
or reason, leaves the Purchase and Sale children completed, and leaves the
product stock at 3 instead of restoring it to 5. -/
theorem cancel_order_does_not_cascade :
    (updateOrderStatusApp sampleState 1 "cancelled" 9).2 = true ∧
    (updateOrderStatusApp sampleState 1 "cancelled" 9).1.orders =
      [(1, applyStatusUpdate pendingOrder "cancelled" 9)] ∧
    (applyStatusUpdate pendingOrder "cancelled" 9).cancelledDate = some 9 ∧
    (applyStatusUpdate pendingOrder "cancelled" 9).cancelReason = none ∧
    (applyStatusUpdate pendingOrder "cancelled" 9).cancelledBy = none ∧
    (updateOrderStatusApp sampleState 1 "cancelled" 9).1.purchases = [samplePurchase] ∧
    samplePurchase.status = "completed" ∧
    (updateOrderStatusApp sampleState 1 "cancelled" 9).1.sales = [sampleSale] ∧
    sampleSale.status = "completed" ∧
    (updateOrderStatusApp sampleState 1 "cancelled" 9).1.products = [sampleProduct] ∧
    sampleProduct.stock = 3 := by
  exact ⟨rfl, rfl, rfl, rfl, rfl, rfl, rfl, rfl, rfl, rfl, rfl⟩

/-- C5 amended: transitioning an existing order to cancelled stamps
cancelledDate (and the cancelled status) on that order document and does
nothing else: the cancelling actor and reason fields keep their previous
values, every Purchase and Sale record is untouched, and no product stock
is restored. -/
theorem cancel_order_stamps_date_only (st : AppState) (orderId : Nat) (now : Nat)
    (h : (st.orders.find? (fun entry => entry.1 = orderId)).isNone = false) :
    (updateOrderStatusApp st orderId "cancelled" now).2 = true ∧
    (updateOrderStatusApp st orderId "cancelled" now).1.orders =
      st.orders.map (fun entry =>
        if entry.1 = orderId then (entry.1, applyStatusUpdate entry.2 "cancelled" now)
        else entry) ∧
    (∀ o : Order,
      (applyStatusUpdate o "cancelled" now).status = "cancelled" ∧
      (applyStatusUpdate o "cancelled" now).cancelledDate = some now ∧
      (applyStatusUpdate o "cancelled" now).cancelReason = o.cancelReason ∧
      (applyStatusUpdate o "cancelled" now).cancelledBy = o.cancelledBy) ∧
    (updateOrderStatusApp st orderId "cancelled" now).1.purchases = st.purchases ∧
    (updateOrderStatusApp st orderId "cancelled" now).1.sales = st.sales ∧
    (updateOrderStatusApp st orderId "cancelled" now).1.products = st.products := by
  have hv : ("cancelled" : String) ∈ validStatuses := by decide
  refine ⟨?_, ?_, ?_, ?_, ?_, ?_⟩
  · simp [updateOrderStatusApp, hv, h]
  · simp [updateOrderStatusApp, hv, h]
  · intro o
    refine ⟨rfl, by simp [applyStatusUpdate], rfl, rfl⟩
  · simp [updateOrderStatusApp, hv, h]
  · simp [updateOrderStatusApp, hv, h]
  · simp [updateOrderStatusApp, hv, h]

theorem cancel_order_stamps_date_only_witness :
    (updateOrderStatusApp sampleState 1 "cancelled" 9).2 = true ∧
    (updateOrderStatusApp sampleState 1 "cancelled" 9).1.orders =
      sampleState.orders.map (fun entry =>
        if entry.1 = 1 then (entry.1, applyStatusUpdate entry.2 "cancelled" 9)
        else entry) ∧
    (∀ o : Order,
      (applyStatusUpdate o "cancelled" 9).status = "cancelled" ∧
      (applyStatusUpdate o "cancelled" 9).cancelledDate = some 9 ∧
      (applyStatusUpdate o "cancelled" 9).cancelReason = o.cancelReason ∧
      (applyStatusUpdate o "cancelled" 9).cancelledBy = o.cancelledBy) ∧
    (updateOrderStatusApp sampleState 1 "cancelled" 9).1.purchases = sampleState.purchases ∧
    (updateOrderStatusApp sampleState 1 "cancelled" 9).1.sales = sampleState.sales ∧
    (updateOrderStatusApp sampleState 1 "cancelled" 9).1.products = sampleState.products :=
  cancel_order_stamps_date_only sampleState 1 9 (by decide)

/-! ### C2 -/

theorem applyPreSave_recomputes (s : Sale) :
    SaleInvariant (s.applyPreSave true true) ∧
    (s.applyPreSave true true).platformCommissionRate = s.platformCommissionRate := by
  constructor
  · constructor
    · simp [Sale.applyPreSave, SaleInvariant]
    · simp [Sale.applyPreSave, SaleInvariant]
  · simp [Sale.applyPreSave]

theorem applyPreSave_skip_preserves (s : Sale) (h : SaleInvariant s)
    (x : Sale)
    (hx : x.totalAmount = s.totalAmount ∧ x.platformCommission = s.platformCommission ∧
      x.platformCommissionRate = s.platformCommissionRate ∧ x.netAmount = s.netAmount) :
    SaleInvariant (x.applyPreSave false false) := by
  obtain ⟨h1, h2⟩ := h
  obtain ⟨hx1, hx2, hx3, hx4⟩ := hx
  constructor
  · simp [Sale.applyPreSave, hx1, hx2, hx3, h1]
  · simp [Sale.applyPreSave, hx1, hx2, hx4, h2]

/-- C2: at the end of every Sale save the repository performs — the
new-document save inside createOrder and the saves done by processRefund
and cancel — the stored record satisfies
platformCommission = totalAmount * platformCommissionRate and
netAmount = totalAmount - platformCommission; the rate is the 0.05 the
creation site hard-codes (the schema default), which lies in the interval
from 0 to 1; and the pre-save hook turns the line with price 100 and
quantity 2 (line total 200) into commission 10 and net amount 190. -/
theorem sale_saves_keep_commission_invariant (s : Sale) (h : SaleWrite s) :
    SaleInvariant s ∧
    s.platformCommissionRate = 5 / 100 ∧
    0 ≤ s.platformCommissionRate ∧ s.platformCommissionRate ≤ 1 ∧
    (Sale.saveNew (mkCreateOrderSale 1 10 99 7 1 2 100 200 "cash")).totalAmount = 200 ∧
    (Sale.saveNew (mkCreateOrderSale 1 10 99 7 1 2 100 200 "cash")).platformCommission = 10 ∧
    (Sale.saveNew (mkCreateOrderSale 1 10 99 7 1 2 100 200 "cash")).netAmount = 190 := by
  have scenario1 :
      (Sale.saveNew (mkCreateOrderSale 1 10 99 7 1 2 100 200 "cash")).totalAmount = 200 := by
    simp [Sale.saveNew, Sale.applyPreSave, mkCreateOrderSale]
  have scenario2 :
      (Sale.saveNew (mkCreateOrderSale 1 10 99 7 1 2 100 200 "cash")).platformCommission
        = 10 := by
    simp [Sale.saveNew, Sale.applyPreSave, mkCreateOrderSale]
    norm_num
  have scenario3 :
      (Sale.saveNew (mkCreateOrderSale 1 10 99 7 1 2 100 200 "cash")).netAmount = 190 := by
    simp [Sale.saveNew, Sale.applyPreSave, mkCreateOrderSale]
    norm_num
  have main : SaleInvariant s ∧ s.platformCommissionRate = 5 / 100 := by
    induction h with
    | createdSale orderId storeId sellerId buyerId productId quantity price total pm =>
      refine ⟨(applyPreSave_recomputes _).1, ?_⟩
      rw [Sale.saveNew, (applyPreSave_recomputes _).2]
      rfl
    | refunded s2 amount reason hs ih =>
      refine ⟨applyPreSave_skip_preserves s2 ih.1 _ ⟨rfl, rfl, rfl, rfl⟩, ?_⟩
      rw [← ih.2]
      rfl
    | cancelledSale s2 reason hs ih =>
      refine ⟨applyPreSave_skip_preserves s2 ih.1 _ ⟨rfl, rfl, rfl, rfl⟩, ?_⟩
      rw [← ih.2]
      rfl
  refine ⟨main.1, main.2, ?_, ?_, scenario1, scenario2, scenario3⟩
  · rw [main.2]; norm_num
  · rw [main.2]; norm_num

theorem sale_saves_keep_commission_invariant_witness :
    SaleInvariant (Sale.saveNew (mkCreateOrderSale 1 10 99 7 1 2 100 200 "cash")) ∧
    (Sale.saveNew (mkCreateOrderSale 1 10 99 7 1 2 100 200 "cash")).platformCommissionRate
      = 5 / 100 :=
  ⟨(sale_saves_keep_commission_invariant _
      (SaleWrite.createdSale 1 10 99 7 1 2 100 200 "cash")).1,
   (sale_saves_keep_commission_invariant _
      (SaleWrite.createdSale 1 10 99 7 1 2 100 200 "cash")).2.1⟩

/-! ### C9 -/

theorem addItemToList_map_of_mem (pid : Nat) (qty price : Rat) :
    ∀ items : List CartItem, pid ∈ items.map CartItem.productId →
      (addItemToList items pid qty price).map CartItem.productId =
        items.map CartItem.productId := by
  intro items
  induction items with
  | nil => intro h; simp at h
  | cons x rest ih =>
    intro h
    by_cases hx : x.productId = pid
    · simp [addItemToList, hx]
    · have hr : pid ∈ rest.map CartItem.productId := by
        rw [List.map_cons] at h
        rcases List.mem_cons.mp h with h1 | h1
        · exact absurd h1.symm hx
        · exact h1
      simp [addItemToList, hx, ih hr]

theorem addItemToList_of_not_mem (pid : Nat) (qty price : Rat) :
    ∀ items : List CartItem, pid ∉ items.map CartItem.productId →
      addItemToList items pid qty price =
        items ++ [{ productId := pid, quantity := qty, price := price }] := by
  intro items
  induction items with
  | nil => intro _; rfl
  | cons x rest ih =>
    intro h
    have hx : ¬ x.productId = pid := by
      intro heq
      exact h (by simp [heq])
    have hr : pid ∉ rest.map CartItem.productId := by
      intro hmem
      exact h (by simp [hmem])
    simp [addItemToList, hx, ih hr]

theorem addItemToList_merge (pid : Nat) (qty price : Rat) :
    ∀ items : List CartItem, pid ∈ items.map CartItem.productId →
      ∃ pre item post,
        items = pre ++ item :: post ∧ item.productId = pid ∧
        (∀ x ∈ pre, x.productId ≠ pid) ∧
        addItemToList items pid qty price =
          pre ++ { item with quantity := item.quantity + qty, price := price } :: post := by
  intro items
  induction items with
  | nil => intro h; simp at h
  | cons x rest ih =>
    intro h
    by_cases hx : x.productId = pid
    · exact ⟨[], x, rest, by simp, hx, by simp, by simp [addItemToList, hx]⟩
    · have hr : pid ∈ rest.map CartItem.productId := by
        rw [List.map_cons] at h
        rcases List.mem_cons.mp h with h1 | h1
        · exact absurd h1.symm hx
        · exact h1
      obtain ⟨pre, item, post, heq, hpid, hpre, hresult⟩ := ih hr
      refine ⟨x :: pre, item, post, by simp [heq], hpid, ?_, ?_⟩
      · intro y hy
        rcases List.mem_cons.mp hy with h1 | h1
        · subst h1; exact hx
        · exact hpre y h1
      · simp [addItemToList, hx, hresult]

theorem setFirstQuantity_map (pid : Nat) (qty : Rat) :
    ∀ items : List CartItem,
      (setFirstQuantity items pid qty).map CartItem.productId =
        items.map CartItem.productId := by
  intro items
  induction items with
  | nil => rfl
  | cons x rest ih =>
    by_cases hx : x.productId = pid
    · simp [setFirstQuantity, hx]
    · simp [setFirstQuantity, hx, ih]

theorem save_total_eq_sum (x : Cart) :
    (Cart.save x).totalAmount =
      ((Cart.save x).items.map (fun item => item.price * item.quantity)).sum := by
  simp [Cart.save, cartItemsTotal_eq_sum]

/-- C9: cart lines are unique per product: the empty cart built by
getOrCreateCart satisfies the invariant, every cart operation (addItem,
updateItemQuantity, removeItem, clear) preserves it, addItem on a product
already present merges into that line — summing the quantity, refreshing
the price, appending nothing — while an absent product is appended as one
new line, and after each of these saved mutations totalAmount is the sum
of price times quantity over the remaining lines. -/
theorem cart_unique_product_lines (c : Cart) (pid : Nat) (qty price q2 : Rat)
    (h : CartUniq c) :
    CartUniq (Cart.mkEmpty c.userId) ∧
    CartUniq (c.addItem pid qty price) ∧
    (∀ c2, c.updateItemQuantity pid q2 = Except.ok c2 → CartUniq c2) ∧
    CartUniq (c.removeItem pid) ∧
    CartUniq c.clear ∧
    (pid ∉ c.items.map CartItem.productId →
      (c.addItem pid qty price).items =
        c.items ++ [{ productId := pid, quantity := qty, price := price }]) ∧
    (pid ∈ c.items.map CartItem.productId →
      (c.addItem pid qty price).items.length = c.items.length ∧
      ∃ pre item post,
        c.items = pre ++ item :: post ∧ item.productId = pid ∧
        (c.addItem pid qty price).items =
          pre ++ { item with quantity := item.quantity + qty, price := price } :: post) ∧
    (c.addItem pid qty price).totalAmount =
      ((c.addItem pid qty price).items.map (fun item => item.price * item.quantity)).sum ∧
    (c.removeItem pid).totalAmount =
      ((c.removeItem pid).items.map (fun item => item.price * item.quantity)).sum ∧
    c.clear.totalAmount =
      (c.clear.items.map (fun item => item.price * item.quantity)).sum ∧
    (∀ c2, c.updateItemQuantity pid q2 = Except.ok c2 →
      c2.totalAmount = (c2.items.map (fun item => item.price * item.quantity)).sum) := by
  have hremove : CartUniq (c.removeItem pid) := by
    have hsub :
        List.Sublist
          ((c.items.filter (fun item => item.productId ≠ pid)).map CartItem.productId)
          (c.items.map CartItem.productId) :=
      (List.filter_sublist c.items).map CartItem.productId
    show ((c.items.filter (fun item => item.productId ≠ pid)).map CartItem.productId).Nodup
    exact List.Nodup.sublist hsub h
  have hupdate : ∀ c2, c.updateItemQuantity pid q2 = Except.ok c2 → CartUniq c2 := by
    intro c2 hc2
    unfold Cart.updateItemQuantity at hc2
    cases hfind : c.items.find? (fun item => item.productId = pid) with
    | none => rw [hfind] at hc2; cases hc2
    | some it =>
      rw [hfind] at hc2
      by_cases hq : q2 ≤ 0
      · rw [if_pos hq] at hc2
        cases hc2
        exact hremove
      · rw [if_neg hq] at hc2
        cases hc2
        show ((Cart.save _).items.map CartItem.productId).Nodup
        simpa [Cart.save, setFirstQuantity_map] using h
  refine ⟨List.nodup_nil, ?_, hupdate, hremove,
    List.nodup_nil, ?_, ?_, save_total_eq_sum _, save_total_eq_sum _,
    save_total_eq_sum _, ?_⟩
  · by_cases hmem : pid ∈ c.items.map CartItem.productId
    · show ((addItemToList c.items pid qty price).map CartItem.productId).Nodup
      rw [addItemToList_map_of_mem pid qty price c.items hmem]
      exact h
    · show ((addItemToList c.items pid qty price).map CartItem.productId).Nodup
      rw [addItemToList_of_not_mem pid qty price c.items hmem]
      simp [List.nodup_append]
      exact ⟨h, by simpa using hmem⟩
  · intro hmem
    exact addItemToList_of_not_mem pid qty price c.items hmem
  · intro hmem
    obtain ⟨pre, item, post, heq, hpid, hpre, hresult⟩ :=
      addItemToList_merge pid qty price c.items hmem
    constructor
    · show (addItemToList c.items pid qty price).length = c.items.length
      rw [hresult, heq]
      simp
    · exact ⟨pre, item, post, heq, hpid, hresult⟩
  · intro c2 hc2
    unfold Cart.updateItemQuantity at hc2
    cases hfind : c.items.find? (fun item => item.productId = pid) with
    | none => rw [hfind] at hc2; cases hc2
    | some it =>
      rw [hfind] at hc2
      by_cases hq : q2 ≤ 0
      · rw [if_pos hq] at hc2
        cases hc2
        exact save_total_eq_sum _
      · rw [if_neg hq] at hc2
        cases hc2
        exact save_total_eq_sum _

def sampleCart : Cart :=
  { userId := 7,
    items := [{ productId := 1, quantity := 1, price := 10 },
              { productId := 2, quantity := 2, price := 7 }],
    totalAmount := 24 }

theorem cart_unique_product_lines_witness :
    CartUniq (sampleCart.addItem 1 3 12) ∧
    CartUniq (sampleCart.removeItem 2) ∧
    (1 : Nat) ∈ sampleCart.items.map CartItem.productId ∧
    (sampleCart.addItem 1 3 12).items.length = sampleCart.items.length :=
  ⟨(cart_unique_product_lines sampleCart 1 3 12 5 (by decide)).2.1,
   (cart_unique_product_lines sampleCart 2 3 12 5 (by decide)).2.2.2.1,
   by decide,
   ((cart_unique_product_lines sampleCart 1 3 12 5 (by decide)).2.2.2.2.2.2.1
      (by decide)).1⟩

/-! ### C6 -/

/-- A request line passes the pre-mutation validation loop exactly when its
product resolves, is active, and has stock at or above the quantity. -/
def lineValid (products : List Product) (item : ReqItem) : Bool :=
  match findProduct products item.product with
  | none => false
  | some p => p.isActive && decide (item.quantity ≤ p.stock)

/-- The two error kinds the validation loop can produce. -/
def isPreMutationError : CreateOrderError → Prop
  | CreateOrderError.productUnavailable _ => True
  | CreateOrderError.insufficientStock _ => True
  | CreateOrderError.noItems => False
  | CreateOrderError.storeLookupFailed => False

theorem validateItems_some_of_invalid (products : List Product) :
    ∀ items : List ReqItem, (∃ item ∈ items, lineValid products item = false) →
      ∃ e, validateItems products items = some e ∧ isPreMutationError e := by
  intro items
  induction items with
  | nil =>
    rintro ⟨item, hmem, _⟩
    simp at hmem
  | cons x rest ih =>
    rintro ⟨item, hmem, hinv⟩
    cases hfind : findProduct products x.product with
    | none =>
      exact ⟨CreateOrderError.productUnavailable x.product,
        by simp [validateItems, hfind], trivial⟩
    | some p =>
      by_cases hact : p.isActive = true
      · by_cases hstock : p.stock < x.quantity
        · exact ⟨CreateOrderError.insufficientStock p.name,
            by simp [validateItems, hfind, hact, hstock], trivial⟩
        · have hxvalid : lineValid products x = true := by
            simp [lineValid, hfind, hact]
            exact not_lt.mp hstock
          have hrest : ∃ item ∈ rest, lineValid products item = false := by
            rcases List.mem_cons.mp hmem with h1 | h1
            · subst h1; rw [hxvalid] at hinv; cases hinv
            · exact ⟨item, h1, hinv⟩
          obtain ⟨e, he, hek⟩ := ih hrest
          refine ⟨e, ?_, hek⟩
          simpa [validateItems, hfind, hact, hstock] using he
      · exact ⟨CreateOrderError.productUnavailable x.product,
          by simp [validateItems, hfind, hact], trivial⟩

/-- C6: when some requested line has a nonexistent or inactive product or a
quantity above the stock, createOrder stops inside the validation loop with
a ProductUnavailable or InsufficientStock style error: no Order, Purchase
or Sale document is created and the catalog — every stock and salesCount —
is returned exactly as it was. -/
theorem createOrder_rejects_before_mutation
    (products : List Product) (stores : List Store) (buyerId orderId : Nat)
    (input : CreateOrderInput)
    (h : ∃ item ∈ input.items, lineValid products item = false) :
    ∃ e, isPreMutationError e ∧
      createOrder products stores buyerId orderId input =
        { error := some e, orders := [], purchases := [], sales := [],
          products := products } := by
  obtain ⟨e, he, hek⟩ := validateItems_some_of_invalid products input.items h
  have hne : input.items.isEmpty = false := by
    rcases h with ⟨item, hmem, _⟩
    cases hitems : input.items with
    | nil => rw [hitems] at hmem; simp at hmem
    | cons a l => simp [hitems]
  refine ⟨e, hek, ?_⟩
  simp [createOrder, hne, he]

def lowStockProduct : Product :=
  { id := 2, storeId := 10, name := "Gorra", price := 10, stock := 3,
    salesCount := 0, isActive := true }

def overdrawInput : CreateOrderInput :=
  { items := [{ product := 2, store := 10, quantity := 5, price := 10, total := 50 }],
    paymentMethod := "cash", subtotal := 50, shippingCost := 0, tax := 0 }

theorem createOrder_rejects_before_mutation_witness :
    ∃ e, isPreMutationError e ∧
      createOrder [lowStockProduct] [{ id := 10, userId := 99 }] 7 1 overdrawInput =
        { error := some e, orders := [], purchases := [], sales := [],
          products := [lowStockProduct] } :=
  createOrder_rejects_before_mutation [lowStockProduct] [{ id := 10, userId := 99 }]
    7 1 overdrawInput
    ⟨{ product := 2, store := 10, quantity := 5, price := 10, total := 50 },
      by simp [overdrawInput],
      by norm_num [lineValid, findProduct, lowStockProduct, List.find?]⟩

/-! ### C3 -/

def c7ProductA : Product :=
  { id := 1, storeId := 10, name := "Mochila", price := 10, stock := 5,
    salesCount := 0, isActive := true }

def c7ProductB : Product :=
  { id := 2, storeId := 20, name := "Taza", price := 7, stock := 4,
    salesCount := 0, isActive := true }

def c7Cart : Cart :=
  { userId := 7,
    items := [{ productId := 1, quantity := 1, price := 10 },
              { productId := 2, quantity := 2, price := 7 }],
    totalAmount := 24 }

/-- Every order document the checkout route constructs fails the Order
schema validation: buyer is never supplied, so the required-path check on
buyer already rejects it. -/
theorem mkCheckoutOrderDoc_invalid (paymentMethod : String) (g : StoreGroup) :
    orderDocValid (mkCheckoutOrderDoc paymentMethod g) = false := by
  simp [orderDocValid, mkCheckoutOrderDoc]

/-- C7 counterexample: checking out the cart holding items of two distinct
stores does not produce one Order with all the items — it produces no Order
at all: the first per-store order document fails the Order schema
validation, its save rejects into the route's catch, checkout answers the
processing error, the catalog keeps its stock and the cart is not
cleared. -/
theorem checkout_multi_store_creates_no_order :
    (checkout [c7ProductA, c7ProductB] c7Cart true (some "cash")).error =
      some CheckoutError.checkoutProcessingError ∧
    (checkout [c7ProductA, c7ProductB] c7Cart true (some "cash")).orders = [] ∧
    (checkout [c7ProductA, c7ProductB] c7Cart true (some "cash")).products =
      [c7ProductA, c7ProductB] ∧
    (checkout [c7ProductA, c7ProductB] c7Cart true (some "cash")).cart = c7Cart := by
  have hval :
      validateCartItems
        [{ id := 1, storeId := 10, name := "Mochila", price := 10, stock := 5,
            salesCount := 0, isActive := true },
          { id := 2, storeId := 20, name := "Taza", price := 7, stock := 4,
            salesCount := 0, isActive := true }]
        [{ productId := 1, quantity := 1, price := 10 },
          { productId := 2, quantity := 2, price := 7 }] = none := by
    norm_num [validateCartItems, findProduct, Product.isAvailable, List.find?]
  refine ⟨?_, ?_, ?_, ?_⟩ <;>
    simp [checkout, Cart.isEmpty, c7Cart, hval, Cart.getItemsByStore,
      groupItemsByStore, addItemToGroups, findProduct, List.find?, c7ProductA,
      c7ProductB, processStoreGroups, mkCheckoutOrderDoc, orderDocValid]

theorem addItemToGroups_ne_nil (sid : Nat) (item : CartItem) :
    ∀ groups : List StoreGroup, addItemToGroups groups sid item ≠ [] := by
  intro groups
  cases groups with
  | nil => simp [addItemToGroups]
  | cons g rest =>
    by_cases hg : g.storeId = sid
    · simp [addItemToGroups, hg]
    · simp [addItemToGroups, hg]

theorem groupItemsByStore_ne_nil (products : List Product) :
    ∀ (items : List CartItem) (groups : List StoreGroup), groups ≠ [] →
      groupItemsByStore products items groups ≠ [] := by
  intro items
  induction items with
  | nil => intro groups hg; simpa [groupItemsByStore] using hg
  | cons x rest ih =>
    intro groups hg
    cases hfind : findProduct products x.productId with
    | none => simpa [groupItemsByStore, hfind] using ih groups hg
    | some p =>
      have hne := addItemToGroups_ne_nil p.storeId x groups
      simpa [groupItemsByStore, hfind] using ih _ hne

/-- A cart whose lines all pass the availability check groups into at least
one store group. -/
theorem getItemsByStore_ne_nil (products : List Product) (c : Cart)
    (h1 : c.items ≠ []) (h2 : validateCartItems products c.items = none) :
    c.getItemsByStore products ≠ [] := by
  cases hitems : c.items with
  | nil => exact absurd hitems h1
  | cons x rest =>
    rw [hitems] at h2
    cases hfind : findProduct products x.productId with
    | none =>
      rw [validateCartItems, hfind] at h2
      cases h2
    | some p =>
      show groupItemsByStore products c.items [] ≠ []
      rw [hitems]
      show groupItemsByStore products (x :: rest) [] ≠ []
      rw [groupItemsByStore, hfind]
      exact groupItemsByStore_ne_nil products rest _ (addItemToGroups_ne_nil p.storeId x [])

/-- C7 amended: a checkout that passes the guards — a non-empty cart of
available items, in particular one spanning two or more stores — persists
no Order at all: the route attempts one Order per store group, but every
constructed order document fails the Order schema validation (buyer,
subtotal, total and the per-item product, store and total are missing,
because the route's userId, storeId, totalAmount, productId and subtotal
are not schema paths), so the first save rejects, the route answers the
processing error, the catalog is unchanged and the cart is not cleared. -/
theorem checkout_never_persists_orders (products : List Product) (c : Cart)
    (paymentMethod : Option String)
    (h1 : c.items ≠ []) (h2 : validateCartItems products c.items = none) :
    (checkout products c true paymentMethod).error =
      some CheckoutError.checkoutProcessingError ∧
    (checkout products c true paymentMethod).orders = [] ∧
    (checkout products c true paymentMethod).products = products ∧
    (checkout products c true paymentMethod).cart = c ∧
    (∀ (pm : String) (g : StoreGroup),
      orderDocValid (mkCheckoutOrderDoc pm g) = false) := by
  have hg := getItemsByStore_ne_nil products c h1 h2
  cases hgs : c.getItemsByStore products with
  | nil => exact absurd hgs hg
  | cons g gs =>
    have hempty : c.isEmpty = false := by
      cases hitems : c.items with
      | nil => exact absurd hitems h1
      | cons a l => simp [Cart.isEmpty, hitems]
    have hdoc := mkCheckoutOrderDoc_invalid (paymentMethod.getD "pending") g
    refine ⟨?_, ?_, ?_, ?_, fun pm g2 => mkCheckoutOrderDoc_invalid pm g2⟩ <;>
      simp [checkout, hempty, h2, hgs, processStoreGroups, hdoc]

theorem checkout_never_persists_orders_witness :
    (checkout [c7ProductA, c7ProductB] c7Cart true (some "cash")).error =
      some CheckoutError.checkoutProcessingError ∧
    (checkout [c7ProductA, c7ProductB] c7Cart true (some "cash")).orders = [] ∧
    (checkout [c7ProductA, c7ProductB] c7Cart true (some "cash")).cart = c7Cart :=
  have hb :=
    checkout_never_persists_orders [c7ProductA, c7ProductB] c7Cart (some "cash")
      (by simp [c7Cart])
      (by norm_num [validateCartItems, findProduct, Product.isAvailable,
        List.find?, c7Cart, c7ProductA, c7ProductB])
  ⟨hb.1, hb.2.1, hb.2.2.2.1⟩

end MarketplaceCR
